import Mathlib

/-!
Shallow embedding of the avatar pipeline of `mic-drop-results`
(`src/mic_drop_results/utils.py` and `src/mic_drop_results/client.py`):
the numeric-identifier check `is_number`, the cache path resolver
`get_avatar_dir`, the effect processor `artistic_effect`, the avatar link
resolver `fetch_avatar_url` and the downloader `download_avatar`.

Strings are modelled through their character lists; network traffic is
modelled by an oracle (a list of API responses consumed in order, and a
CDN lookup function), and every network event (lookup request, sleep,
CDN request, cache write) is recorded in an explicit trace.
-/

/-- ASCII decimal digit test, mirroring the digits accepted by CPython's
float parser for ASCII input. -/
def isPyDigit (c : Char) : Bool := ('0' ≤ c) && (c ≤ '9')

/-- ASCII whitespace stripped by CPython's `float()` around the number. -/
def isPySpace (c : Char) : Bool :=
  (c = ' ') || (c = '\t') || (c = '\n') || (c = '\r') || (c = '\x0b') || (c = '\x0c')

/-- Strip leading and trailing whitespace from a character list. -/
def stripChars (cs : List Char) : List Char :=
  ((cs.dropWhile isPySpace).reverse.dropWhile isPySpace).reverse

/-- ASCII lowercasing of one character, mirroring `str.lower` on ASCII. -/
def charLower (c : Char) : Char :=
  if ('A' ≤ c) && (c ≤ 'Z') then Char.ofNat (c.toNat + 32) else c

/-- ASCII lowercasing of a string, mirroring `str.lower` on ASCII text. -/
def strLower (s : String) : String := String.mk (s.data.map charLower)

/-- Python slice `s[n:]`: drop the first `n` characters. -/
def strDrop (s : String) (n : Nat) : String := String.mk (s.data.drop n)

/-- Python slice `s[:n]`: take the first `n` characters. -/
def strTake (s : String) (n : Nat) : String := String.mk (s.data.take n)

/-- Does the second list start with the first one? -/
def listStartsWith : List Char → List Char → Bool
  | [], _ => true
  | _ :: _, [] => false
  | p :: ps, c :: cs => (p = c) && listStartsWith ps cs

/-- Python's `pat in s` substring containment on character lists. -/
def listContainsSub (pat : List Char) : List Char → Bool
  | [] => listStartsWith pat []
  | c :: rest => listStartsWith pat (c :: rest) || listContainsSub pat rest

/-- CPython requires every underscore in a numeric literal passed to
`float()` to be immediately preceded and followed by a digit; `prev` is
the character right before the list under scrutiny. -/
def underscoresOkAux : Char → List Char → Bool
  | _, [] => true
  | prev, c :: rest =>
    if c = '_' then
      isPyDigit prev &&
        (match rest with
         | d :: _ => isPyDigit d
         | [] => false) &&
        underscoresOkAux c rest
    else underscoresOkAux c rest

/-- Underscore placement check of CPython's `float()`. -/
def underscoresOk : List Char → Bool
  | [] => true
  | c :: rest => (!(c = '_')) && underscoresOkAux c rest

/-- Consume the mantissa (`digits`, `digits.digits`, `digits.` or
`.digits`, at least one digit overall) and return the remaining
characters, or `none` when no valid mantissa is present. -/
def mantissaRest (cs : List Char) : Option (List Char) :=
  let ds1 := cs.takeWhile isPyDigit
  let r1 := cs.dropWhile isPyDigit
  match r1 with
  | '.' :: r2 =>
    let ds2 := r2.takeWhile isPyDigit
    let r3 := r2.dropWhile isPyDigit
    if ds1.isEmpty && ds2.isEmpty then none else some r3
  | _ => if ds1.isEmpty then none else some r1

/-- Accept an optional exponent part (`e`/`E`, optional sign, digits)
filling the whole remainder of the literal. -/
def expOk : List Char → Bool
  | [] => true
  | c :: rest =>
    if (c = 'e') || (c = 'E') then
      let rest2 :=
        match rest with
        | s :: r3 => if (s = '+') || (s = '-') then r3 else s :: r3
        | [] => []
      (!rest2.isEmpty) && rest2.all isPyDigit
    else false

/-- Accept the body of a float literal after sign removal: the words
`inf`, `infinity` and `nan` (case-insensitively) or a decimal mantissa
with an optional exponent. -/
def floatBodyOk (cs : List Char) : Bool :=
  let low := cs.map charLower
  if (low == ("inf").data) || (low == ("infinity").data) || (low == ("nan").data) then true
  else
    match mantissaRest cs with
    | none => false
    | some rest => expOk rest

/-- Acceptance of a string by CPython's `float()` constructor (ASCII
fragment): strip whitespace, check underscore placement, remove
underscores, strip one optional sign, then accept `inf`/`infinity`/`nan`
or a decimal literal with optional exponent. -/
def pyFloatOk (s : String) : Bool :=
  let cs := stripChars s.data
  if !(underscoresOk cs) then false
  else
    let cs2 := cs.filter (fun c => !(c == '_'))
    let cs3 :=
      match cs2 with
      | c :: r => if (c = '+') || (c = '-') then r else c :: r
      | [] => []
    floatBodyOk cs3

/-- Embedding of `utils.is_number`: `try: float(val); return True;
except ValueError: return False` — i.e. exactly acceptance of the value
by `float()`. -/
def is_number (val : String) : Bool := pyFloatOk val

/-- Rightmost index of a character in a list (`str.rfind` on a hit). -/
def rfindIdx (c : Char) : List Char → Option Nat
  | [] => none
  | x :: xs =>
    match rfindIdx c xs with
    | some i => some (i + 1)
    | none => if x = c then some 0 else none

/-- `pathlib.PurePath.stem` on a file name: the name with its final
suffix removed, where a suffix exists only when the last dot sits
strictly inside the name. -/
def pathStem (name : String) : String :=
  match rfindIdx '.' name.data with
  | none => name
  | some i => if 0 < i ∧ i < name.data.length - 1 then strTake name i else name

/-- A filesystem path, reduced to the directory segments and the final
component (`.name` in `pathlib`); only the final component is ever
inspected by the code under study. -/
structure PyPath where
  parent : List String
  name : String
deriving DecidableEq, Repr

/-- The avatar cache directory `AVATAR_DIR` of `constants.py`
(`{APP_DIR}\avatars`); its concrete value never matters. -/
def AVATAR_SEGS : List String := ["APP_DIR", "avatars"]

/-- Python's `ValueError` raised by `get_avatar_dir`. -/
inductive PyValueError
  | valueError
deriving DecidableEq, Repr

instance exceptDecEq {α β : Type} [DecidableEq α] [DecidableEq β] :
    DecidableEq (Except α β) := fun a b =>
  match a, b with
  | Except.ok x, Except.ok y =>
    if h : x = y then isTrue (by rw [h])
    else isFalse (by intro hc; injection hc with h2; exact h h2)
  | Except.error x, Except.error y =>
    if h : x = y then isTrue (by rw [h])
    else isFalse (by intro hc; injection hc with h2; exact h h2)
  | Except.ok _, Except.error _ => isFalse (by intro hc; exact Except.noConfusion hc)
  | Except.error _, Except.ok _ => isFalse (by intro hc; exact Except.noConfusion hc)

/-- `utils.get_avatar_dir` called with a user id: the path
`abs_dir(AVATAR_DIR, f"{effect}_{uid}.png")`. -/
def get_avatar_dir_uid (uid : String) (effect : Int) : PyPath :=
  ⟨AVATAR_SEGS, ((toString effect ++ "_") ++ uid) ++ ".png"⟩

/-- `utils.get_avatar_dir` called with `uid=None` and an original path:
raise `ValueError` unless `og_dir` leads to a file
(`og_dir.stem != og_dir.name`), then return
`abs_dir(AVATAR_DIR, f"{effect}_" + og_dir.name[2:])`. -/
def get_avatar_dir_og (og_dir : PyPath) (effect : Int) : Except PyValueError PyPath :=
  if pathStem og_dir.name = og_dir.name then Except.error PyValueError.valueError
  else Except.ok ⟨AVATAR_SEGS, (toString effect ++ "_") ++ strDrop og_dir.name 2⟩

/-- Decoded image contents, abstracted to a list of sample values. -/
abbrev Img := List Nat

/-- The cache directory contents: an association list from paths to the
image last written there (`cv2.imwrite` semantics: later writes win). -/
abbrev FileSys := List (PyPath × Img)

/-- `cv2.imread`: the image stored at a path, or `none` for a miss
(`cv2.imread` returns `None` on an unreadable path). -/
def fsLookup (fs : FileSys) (p : PyPath) : Option Img :=
  match fs with
  | [] => none
  | (q, i) :: rest => if q = p then some i else fsLookup rest p

/-- `cv2.imwrite`: record an image at a path, shadowing prior entries. -/
def fsWrite (fs : FileSys) (p : PyPath) (i : Img) : FileSys := (p, i) :: fs

/-- Exceptions observable from `artistic_effect`: `cv2.error` (raised by
`cv2.cvtColor(None, ...)` or `cv2.imwrite(path, None)`) and the
`ValueError` of `get_avatar_dir`. -/
inductive CvErr
  | cv2Error
  | valueError
deriving DecidableEq, Repr

/-- Embedding of `utils.artistic_effect`; `gray` stands for the external
`cv2.cvtColor(img, cv2.COLOR_BGR2GRAY)` transform. For a non-zero effect
the source image is read, transformed only when the effect code is the
recognized `1`, and written to the sibling cache path derived by
`get_avatar_dir`; effect `0` returns the input path with no read or
write. -/
def artistic_effect (gray : Img → Img) (og_dir : PyPath) (effect : Int)
    (fs : FileSys) : Except CvErr PyPath × FileSys :=
  if effect ≠ 0 then
    let img0 := fsLookup fs og_dir
    let step : Except CvErr (Option Img) :=
      if effect = 1 then
        match img0 with
        | none => Except.error CvErr.cv2Error
        | some i => Except.ok (some (gray i))
      else Except.ok img0
    match step with
    | Except.error e => (Except.error e, fs)
    | Except.ok imgOpt =>
      match get_avatar_dir_og og_dir effect with
      | Except.error _ => (Except.error CvErr.valueError, fs)
      | Except.ok fx_dir =>
        match imgOpt with
        | none => (Except.error CvErr.cv2Error, fs)
        | some i => (Except.ok fx_dir, fsWrite fs fx_dir i)
  else (Except.ok og_dir, fs)

/-- The JSON body of a Discord user-lookup response, restricted to the
fields the client reads: the `avatar` hash (`none` models an absent key,
which raises `KeyError`), the error `message`, and the rate-limit
`retry_after` duration in seconds. -/
structure ApiResponse where
  avatar : Option String
  message : String
  retry_after : ℚ
deriving DecidableEq, Repr

/-- Exceptions raised by `fetch_avatar_url`, each carrying the context
the source attaches to it. -/
inductive FetchExn
  | connectionError
  | invalidTokenError (token : String) (body : ApiResponse)
  | unknownUserError (uid : String) (body : ApiResponse)
  | discordAPIError (token : String) (body : ApiResponse)
deriving DecidableEq, Repr

/-- Observable side effects of the pipeline, recorded in order. -/
inductive Event
  | lookupRequest (uid token : String) (size : Nat)
  | sleep (d : ℚ)
  | cdnRequest (url : String)
  | fsWriteEv (p : PyPath)
deriving DecidableEq, Repr

/-- Outcome of `fetch_avatar_url`: a normal return (`some` CDN URL or
Python's `None`) or a raised exception. -/
inductive FetchRet
  | ok (r : Option String)
  | exn (e : FetchExn)
deriving DecidableEq, Repr

/-- The message markers the client matches against the lowercased
`message` field. -/
def unauthorizedMarker : List Char := ("401: unauthorized").data

def limitMarker : List Char := ("limit").data

def unknownUserMarker : List Char := ("unknown user").data

/-- The CDN URL template
`https://cdn.discordapp.com/avatars/{uid}/{hash}.png?size={size}`. -/
def avatar_url_format (uid hash : String) (size : Nat) : String :=
  "https://cdn.discordapp.com/avatars/" ++
    (uid ++ ("/" ++ (hash ++ (".png?size=" ++ toString size))))

/-- Embedding of `client.fetch_avatar_url`. The network is an oracle
list of responses consumed one per issued request; an exhausted oracle
models a transport-level failure of `requests.get` (converted by the
source into a raised `ConnectionError`). Classification follows the
source: a present `avatar` key yields the formatted CDN URL; otherwise
the lowercased message is matched for the unauthorized, rate-limit and
unknown-user markers in that order. On rate limit the code sleeps
`retry_after` and recurses, discarding the value of the recursive call
(no `return`), so a returning retry makes the whole call return `None`
while a raised exception still propagates. -/
def fetch_avatar_url (uid api_token : String) (size : Nat) :
    List ApiResponse → FetchRet × List Event
  | [] =>
    if is_number uid then
      (FetchRet.exn FetchExn.connectionError, [Event.lookupRequest uid api_token size])
    else (FetchRet.ok none, [])
  | r :: rest =>
    if is_number uid then
      match r.avatar with
      | some hash =>
        (FetchRet.ok (some (avatar_url_format uid hash size)),
         [Event.lookupRequest uid api_token size])
      | none =>
        let msg := strLower r.message
        if listContainsSub unauthorizedMarker msg.data then
          (FetchRet.exn (FetchExn.invalidTokenError api_token r),
           [Event.lookupRequest uid api_token size])
        else if listContainsSub limitMarker msg.data then
          match fetch_avatar_url uid api_token size rest with
          | (FetchRet.ok _, tr) =>
            (FetchRet.ok none,
             Event.lookupRequest uid api_token size :: Event.sleep r.retry_after :: tr)
          | (FetchRet.exn e, tr) =>
            (FetchRet.exn e,
             Event.lookupRequest uid api_token size :: Event.sleep r.retry_after :: tr)
        else if listContainsSub unknownUserMarker msg.data then
          (FetchRet.exn (FetchExn.unknownUserError uid r),
           [Event.lookupRequest uid api_token size])
        else
          (FetchRet.exn (FetchExn.discordAPIError api_token r),
           [Event.lookupRequest uid api_token size])
    else (FetchRet.ok none, [])

/-- Modelled from the spec: `get_avatar_path`, imported by `client.py`
from `utils`, is absent from the sources (the shipped `utils.py` exposes
`get_avatar_dir` instead); the spec says the downloader "writes the
decoded bitmap to the effect-0 cache path for that identifier", so it is
the effect-0 cache path of the identifier. -/
def get_avatar_path (uid : String) : PyPath := get_avatar_dir_uid uid 0

/-- Exceptions observable from `download_avatar`: an exception
propagating out of `fetch_avatar_url`; the `ConnectionError` the source
raises when `urlopen` fails with `URLError`; and the `cv2.error` raised
by `cv2.imwrite(path, None)` after `cv2.imdecode` returns `None` on
undecodable bytes. -/
inductive DlExn
  | fetchErr (e : FetchExn)
  | cdnConnError
  | cv2Error
deriving DecidableEq, Repr

/-- Outcome of `download_avatar`, which returns `None` on success. -/
inductive DlRet
  | ok
  | exn (e : DlExn)
deriving DecidableEq, Repr

/-- Raw bytes of a CDN response body. -/
abbrev Bytes := List Nat

/-- Embedding of `client.download_avatar`. `cdn` is the CDN oracle
(`none` models `urlopen` raising `URLError`); `dec` is `cv2.imdecode`
(`none` models undecodable bytes). The source sleeps 0.01s, calls the
resolver, and only on a truthy URL issues the CDN request, decodes, and
writes the effect-0 cache entry. Returns the outcome, the resulting
cache state and the event trace. -/
def download_avatar (uid api_token : String) (size : Nat)
    (resps : List ApiResponse) (cdn : String → Option Bytes)
    (dec : Bytes → Option Img) (fs : FileSys) : DlRet × FileSys × List Event :=
  let img_path := get_avatar_path uid
  let f := fetch_avatar_url uid api_token size resps
  let tr := Event.sleep (1 / 100) :: f.2
  match f.1 with
  | FetchRet.exn e => (DlRet.exn (DlExn.fetchErr e), fs, tr)
  | FetchRet.ok none => (DlRet.ok, fs, tr)
  | FetchRet.ok (some url) =>
    if url = "" then (DlRet.ok, fs, tr)
    else
      let tr2 := tr ++ [Event.cdnRequest url]
      match cdn url with
      | none => (DlRet.exn DlExn.cdnConnError, fs, tr2)
      | some bs =>
        match dec bs with
        | none => (DlRet.exn DlExn.cv2Error, fs, tr2)
        | some img =>
          (DlRet.ok, fsWrite fs img_path img, tr2 ++ [Event.fsWriteEv img_path])

example : is_number "2.5" = true := by decide
example : is_number "1e5" = true := by decide
example : is_number "inf" = true := by decide
example : is_number "nan" = true := by decide
example : is_number "abc" = false := by decide
example : is_number "" = false := by decide
example : is_number "123" = true := by decide
example : is_number "1_0" = true := by decide
example : is_number "1_" = false := by decide
example : is_number " -Infinity " = true := by decide
example : is_number "1e" = false := by decide
example : is_number "." = false := by decide
example : is_number "5." = true := by decide
example : is_number "+.5" = true := by decide
example : pathStem "0_123.png" = "0_123" := by decide
example : get_avatar_dir_uid "123" 0 = ⟨AVATAR_SEGS, "0_123.png"⟩ := by decide
example :
    get_avatar_dir_og (get_avatar_dir_uid "123" 1) 2 =
      Except.ok (get_avatar_dir_uid "123" 2) := by decide
example :
    get_avatar_dir_og (get_avatar_dir_uid "123" 10) 0 ≠
      Except.ok (get_avatar_dir_uid "123" 0) := by decide

example :
    fetch_avatar_url "abc" "tk" 64 [⟨some "h", "", 0⟩] = (FetchRet.ok none, []) := by
  decide

example :
    fetch_avatar_url "123" "tk" 64 [⟨some "h", "", 0⟩] =
      (FetchRet.ok (some "https://cdn.discordapp.com/avatars/123/h.png?size=64"),
       [Event.lookupRequest "123" "tk" 64]) := by decide

example :
    fetch_avatar_url "123" "tk" 64 [⟨none, "You are being rate limited.", 5 / 2⟩, ⟨some "h", "", 0⟩] =
      (FetchRet.ok none,
       [Event.lookupRequest "123" "tk" 64, Event.sleep (5 / 2),
        Event.lookupRequest "123" "tk" 64]) := rfl

example :
    fetch_avatar_url "123" "tk" 64 [⟨none, "401: Unauthorized", 0⟩] =
      (FetchRet.exn (FetchExn.invalidTokenError "tk" ⟨none, "401: Unauthorized", 0⟩),
       [Event.lookupRequest "123" "tk" 64]) := by decide

/-! ## Helper lemmas -/

theorem strEqOfData (s t : String) (h : s.data = t.data) : s = t := by
  cases s; cases t; cases h; rfl

theorem strDataAppend (s t : String) : (s ++ t).data = s.data ++ t.data := by
  cases s; cases t; rfl

theorem rfindIdx_append (c : Char) (xs ys : List Char) :
    rfindIdx c (xs ++ ys) =
      match rfindIdx c ys with
      | some i => some (xs.length + i)
      | none => rfindIdx c xs := by
  induction xs with
  | nil =>
    simp only [List.nil_append, List.length_nil]
    cases rfindIdx c ys <;> simp [rfindIdx]
  | cons x xs ih =>
    simp only [List.cons_append, rfindIdx, List.append_eq, ih, List.length_cons]
    cases hys : rfindIdx c ys with
    | some i => simp only [Option.some.injEq]; omega
    | none => rfl

theorem avatar_name_data (uid : String) (e : Int) :
    (get_avatar_dir_uid uid e).name.data =
      (toString e).data ++ '_' :: (uid.data ++ ['.', 'p', 'n', 'g']) := by
  show (((toString e ++ "_") ++ uid) ++ ".png").data = _
  rw [strDataAppend, strDataAppend, strDataAppend]
  simp

/-- When the decimal rendering of the effect code is a single character,
the cache path built for `(uid, e)` is inverted by the `og_dir`-mode of
`get_avatar_dir`: stripping the two leading characters recovers
`uid ++ ".png"` and the rebuilt sibling path is the one for `(uid, f)`. -/
theorem gadog_single_char (uid : String) (e f : Int) (d : Char)
    (hd : (toString e).data = [d]) :
    get_avatar_dir_og (get_avatar_dir_uid uid e) f =
      Except.ok (get_avatar_dir_uid uid f) := by
  have hnm : (get_avatar_dir_uid uid e).name.data =
      (d :: '_' :: uid.data) ++ ['.', 'p', 'n', 'g'] := by
    rw [avatar_name_data, hd]; simp
  have hlen : (get_avatar_dir_uid uid e).name.data.length = uid.data.length + 6 := by
    rw [hnm]; simp
  have hrf : rfindIdx '.' (get_avatar_dir_uid uid e).name.data =
      some (uid.data.length + 2) := by
    rw [hnm, rfindIdx_append]
    have h4 : rfindIdx '.' ['.', 'p', 'n', 'g'] = some 0 := by decide
    rw [h4]
    simp
  have hstem : ¬ pathStem (get_avatar_dir_uid uid e).name =
      (get_avatar_dir_uid uid e).name := by
    have hcond : 0 < uid.data.length + 2 ∧
        uid.data.length + 2 < (get_avatar_dir_uid uid e).name.data.length - 1 := by
      rw [hlen]; omega
    unfold pathStem
    rw [hrf]
    show ¬ (if 0 < uid.data.length + 2 ∧
        uid.data.length + 2 < (get_avatar_dir_uid uid e).name.data.length - 1 then
          strTake (get_avatar_dir_uid uid e).name (uid.data.length + 2)
        else (get_avatar_dir_uid uid e).name) = (get_avatar_dir_uid uid e).name
    rw [if_pos hcond]
    intro hcontra
    have hl := congrArg (fun s : String => s.data.length) hcontra
    simp only [strTake, List.length_take] at hl
    rw [hlen] at hl
    omega
  unfold get_avatar_dir_og
  rw [if_neg hstem]
  congr 1
  show (⟨AVATAR_SEGS, (toString f ++ "_") ++ strDrop (get_avatar_dir_uid uid e).name 2⟩ : PyPath) =
    ⟨AVATAR_SEGS, ((toString f ++ "_") ++ uid) ++ ".png"⟩
  congr 1
  apply strEqOfData
  rw [strDataAppend, strDataAppend, strDataAppend]
  simp only [strDrop, hnm]
  simp

/-! ## Claim C4 -/

/-- Claim C4 counterexample: for the valid pair `("123", 10)` the
recovery built into `get_avatar_dir` does not return the original
identifier's path: `og_dir.name[2:]` strips only two characters, so the
rebuilt path for effect `0` is `0__123.png` instead of `0_123.png`, and
the recovered fragment is `_123.png`, not `123.png`. -/
theorem cache_path_roundtrip_fails_two_digit_effect :
    (get_avatar_dir_og (get_avatar_dir_uid "123" 10) 0 ≠
        Except.ok (get_avatar_dir_uid "123" 0)) ∧
      strDrop (get_avatar_dir_uid "123" 10).name 2 ≠ "123" ++ ".png" ∧
      get_avatar_dir_og (get_avatar_dir_uid "123" 10) 0 =
        Except.ok ⟨AVATAR_SEGS, "0__123.png"⟩ := by decide

/-- Claim C4 (amended): for every identifier and every effect code whose
decimal rendering is a single character — in particular every code from
0 through 9, which covers both effect codes the program uses — the
`og_dir`-mode recovery of `get_avatar_dir` inverts the path construction
for the identifier: rebuilding with any target effect `f` from the path
of `(uid, e)` yields exactly the path of `(uid, f)`. -/
theorem cache_path_roundtrip_single_digit (uid : String) (e f : Int)
    (h0 : 0 ≤ e) (h9 : e ≤ 9) :
    get_avatar_dir_og (get_avatar_dir_uid uid e) f =
      Except.ok (get_avatar_dir_uid uid f) := by
  interval_cases e
  · exact gadog_single_char uid 0 f '0' (by decide)
  · exact gadog_single_char uid 1 f '1' (by decide)
  · exact gadog_single_char uid 2 f '2' (by decide)
  · exact gadog_single_char uid 3 f '3' (by decide)
  · exact gadog_single_char uid 4 f '4' (by decide)
  · exact gadog_single_char uid 5 f '5' (by decide)
  · exact gadog_single_char uid 6 f '6' (by decide)
  · exact gadog_single_char uid 7 f '7' (by decide)
  · exact gadog_single_char uid 8 f '8' (by decide)
  · exact gadog_single_char uid 9 f '9' (by decide)

/-- Claim C4 witness: the round trip at identifier `"77"`, stored effect
`1`, rebuilt effect `0`. -/
theorem cache_path_roundtrip_witness :
    ((0 : Int) ≤ 1 ∧ (1 : Int) ≤ 9) ∧
      get_avatar_dir_og (get_avatar_dir_uid "77" 1) 0 =
        Except.ok (get_avatar_dir_uid "77" 0) :=
  ⟨by decide, cache_path_roundtrip_single_digit "77" 1 0 (by decide) (by decide)⟩

/-! ## Trace bookkeeping -/

/-- Is the event a lookup request to the user endpoint? -/
def isLookup : Event → Bool
  | Event.lookupRequest _ _ _ => true
  | _ => false

/-- Number of lookup requests issued in a trace. -/
def countLookups (tr : List Event) : Nat := (tr.filter isLookup).length

/-- Is the event a CDN request or a cache write? -/
def isCdnOrWrite : Event → Bool
  | Event.cdnRequest _ => true
  | Event.fsWriteEv _ => true
  | _ => false

/-- Unfolding of `fetch_avatar_url` on a rate-limited head response: the
lookup request is logged, the resolver sleeps the `retry_after` read
from the body, the recursion on the remaining oracle supplies the rest
of the trace, and a returning recursion is collapsed to `None` while a
raised exception propagates. -/
theorem fetch_rate_limit_eq (uid t : String) (s : Nat) (r : ApiResponse)
    (rest : List ApiResponse) (hnum : is_number uid = true)
    (hav : r.avatar = none)
    (h401 : listContainsSub unauthorizedMarker (strLower r.message).data = false)
    (hlim : listContainsSub limitMarker (strLower r.message).data = true) :
    fetch_avatar_url uid t s (r :: rest) =
      ((match (fetch_avatar_url uid t s rest).1 with
        | FetchRet.ok _ => FetchRet.ok none
        | FetchRet.exn e => FetchRet.exn e),
       Event.lookupRequest uid t s :: Event.sleep r.retry_after ::
         (fetch_avatar_url uid t s rest).2) := by
  rcases hrec : fetch_avatar_url uid t s rest with ⟨rr, tr⟩
  cases rr <;> simp [fetch_avatar_url, hnum, hav, h401, hlim, hrec]

/-- Whenever the identifier passes the numeric check, the very first
event of the resolver is the lookup request for that identifier. -/
theorem fetch_trace_head (uid t : String) (s : Nat) (resps : List ApiResponse)
    (hnum : is_number uid = true) :
    (fetch_avatar_url uid t s resps).2.head? = some (Event.lookupRequest uid t s) := by
  cases resps with
  | nil => simp [fetch_avatar_url, hnum]
  | cons r rest =>
    cases hav : r.avatar with
    | some hash => simp [fetch_avatar_url, hnum, hav]
    | none =>
      by_cases h401 : listContainsSub unauthorizedMarker (strLower r.message).data = true
      · simp [fetch_avatar_url, hnum, hav, h401]
      · simp only [Bool.not_eq_true] at h401
        by_cases hlim : listContainsSub limitMarker (strLower r.message).data = true
        · rw [fetch_rate_limit_eq uid t s r rest hnum hav h401 hlim]
          rfl
        · simp only [Bool.not_eq_true] at hlim
          by_cases hun : listContainsSub unknownUserMarker (strLower r.message).data = true
          · simp [fetch_avatar_url, hnum, hav, h401, hlim, hun]
          · simp only [Bool.not_eq_true] at hun
            simp [fetch_avatar_url, hnum, hav, h401, hlim, hun]

/-- The resolver alone never issues a CDN request and never writes to
the cache: its trace holds only lookup requests and sleeps. -/
theorem fetch_trace_events (uid t : String) (s : Nat) (resps : List ApiResponse) :
    ∀ e ∈ (fetch_avatar_url uid t s resps).2, isCdnOrWrite e = false := by
  induction resps with
  | nil =>
    by_cases hnum : is_number uid = true <;>
      simp [fetch_avatar_url, hnum, isCdnOrWrite]
  | cons r rest ih =>
    by_cases hnum : is_number uid = true
    · cases hav : r.avatar with
      | some hash => simp [fetch_avatar_url, hnum, hav, isCdnOrWrite]
      | none =>
        by_cases h401 : listContainsSub unauthorizedMarker (strLower r.message).data = true
        · simp [fetch_avatar_url, hnum, hav, h401, isCdnOrWrite]
        · simp only [Bool.not_eq_true] at h401
          by_cases hlim : listContainsSub limitMarker (strLower r.message).data = true
          · rw [fetch_rate_limit_eq uid t s r rest hnum hav h401 hlim]
            intro e he
            simp only [List.mem_cons] at he
            rcases he with he | he | he
            · rw [he]; rfl
            · rw [he]; rfl
            · exact ih e he
          · simp only [Bool.not_eq_true] at hlim
            by_cases hun : listContainsSub unknownUserMarker (strLower r.message).data = true
            · simp [fetch_avatar_url, hnum, hav, h401, hlim, hun, isCdnOrWrite]
            · simp only [Bool.not_eq_true] at hun
              simp [fetch_avatar_url, hnum, hav, h401, hlim, hun, isCdnOrWrite]
    · simp only [Bool.not_eq_true] at hnum
      simp [fetch_avatar_url, hnum]

/-- A URL returned by the resolver is never the empty string: it always
starts with the CDN base, so Python's truthiness test on it passes. -/
theorem fetch_some_nonempty (uid t : String) (s : Nat) (resps : List ApiResponse)
    (url : String) (h : (fetch_avatar_url uid t s resps).1 = FetchRet.ok (some url)) :
    ¬ url = "" := by
  intro hurl
  subst hurl
  cases resps with
  | nil =>
    by_cases hnum : is_number uid = true <;> simp [fetch_avatar_url, hnum] at h
  | cons r rest =>
    by_cases hnum : is_number uid = true
    · cases hav : r.avatar with
      | some hash =>
        simp [fetch_avatar_url, hnum, hav] at h
        have h2 : (avatar_url_format uid hash s).data = [] := by rw [h]
        rw [avatar_url_format, strDataAppend] at h2
        rcases List.append_eq_nil.mp h2 with ⟨h3, _⟩
        exact absurd h3 (by decide)
      | none =>
        by_cases h401 : listContainsSub unauthorizedMarker (strLower r.message).data = true
        · simp [fetch_avatar_url, hnum, hav, h401] at h
        · simp only [Bool.not_eq_true] at h401
          by_cases hlim : listContainsSub limitMarker (strLower r.message).data = true
          · rw [fetch_rate_limit_eq uid t s r rest hnum hav h401 hlim] at h
            simp only [] at h
            cases hr : (fetch_avatar_url uid t s rest).1 <;> rw [hr] at h <;> simp at h
          · simp only [Bool.not_eq_true] at hlim
            by_cases hun : listContainsSub unknownUserMarker (strLower r.message).data = true
            · simp [fetch_avatar_url, hnum, hav, h401, hlim, hun] at h
            · simp only [Bool.not_eq_true] at hun
              simp [fetch_avatar_url, hnum, hav, h401, hlim, hun] at h
    · simp only [Bool.not_eq_true] at hnum
      simp [fetch_avatar_url, hnum] at h

/-- `download_avatar` when the resolver raises: the pacing sleep and the
resolver's events happened, the exception propagates, nothing is
downloaded or written. -/
theorem download_eq_of_fetch_exn (uid t : String) (s : Nat)
    (resps : List ApiResponse) (cdn : String → Option Bytes)
    (dec : Bytes → Option Img) (fs : FileSys) (e : FetchExn)
    (h : (fetch_avatar_url uid t s resps).1 = FetchRet.exn e) :
    download_avatar uid t s resps cdn dec fs =
      (DlRet.exn (DlExn.fetchErr e), fs,
       Event.sleep (1 / 100) :: (fetch_avatar_url uid t s resps).2) := by
  simp [download_avatar, h]

/-- `download_avatar` when the resolver returns `None`: it returns
normally, performs no CDN request and leaves the cache untouched. -/
theorem download_eq_of_fetch_none (uid t : String) (s : Nat)
    (resps : List ApiResponse) (cdn : String → Option Bytes)
    (dec : Bytes → Option Img) (fs : FileSys)
    (h : (fetch_avatar_url uid t s resps).1 = FetchRet.ok none) :
    download_avatar uid t s resps cdn dec fs =
      (DlRet.ok, fs, Event.sleep (1 / 100) :: (fetch_avatar_url uid t s resps).2) := by
  simp [download_avatar, h]

/-- `download_avatar` when the resolver returns a URL, the CDN answers,
and the bytes do not decode: `cv2.imdecode` yields `None`, so the write
raises `cv2.error` and the cache is left untouched. -/
theorem download_eq_decode_fail (uid t : String) (s : Nat)
    (resps : List ApiResponse) (cdn : String → Option Bytes)
    (dec : Bytes → Option Img) (fs : FileSys) (url : String) (bs : Bytes)
    (h : (fetch_avatar_url uid t s resps).1 = FetchRet.ok (some url))
    (hcdn : cdn url = some bs) (hdec : dec bs = none) :
    download_avatar uid t s resps cdn dec fs =
      (DlRet.exn DlExn.cv2Error, fs,
       (Event.sleep (1 / 100) :: (fetch_avatar_url uid t s resps).2) ++
         [Event.cdnRequest url]) := by
  have hne := fetch_some_nonempty uid t s resps url h
  simp [download_avatar, h, hne, hcdn, hdec]

/-! ## Claim C1 -/

/-- Claim C1: when the first lookup response lacks the avatar field and
its (lowercased) message contains the rate-limit marker `limit` but not
the unauthorized marker checked before it, `fetch_avatar_url` issues the
lookup request, sleeps exactly the `retry_after` duration read from the
response body (hence at least that duration), and the very next event is
one retry of the same lookup request; the rate-limited call issues
exactly one lookup request more than the retried resolution does (so
exactly two in total whenever the retry is answered by any
non-rate-limited response). -/
theorem rate_limit_sleeps_then_single_retry (uid t : String) (s : Nat)
    (r : ApiResponse) (rest : List ApiResponse)
    (hnum : is_number uid = true) (hav : r.avatar = none)
    (h401 : listContainsSub unauthorizedMarker (strLower r.message).data = false)
    (hlim : listContainsSub limitMarker (strLower r.message).data = true) :
    (fetch_avatar_url uid t s (r :: rest)).2 =
        Event.lookupRequest uid t s :: Event.sleep r.retry_after ::
          (fetch_avatar_url uid t s rest).2 ∧
      (fetch_avatar_url uid t s rest).2.head? = some (Event.lookupRequest uid t s) ∧
      countLookups (fetch_avatar_url uid t s (r :: rest)).2 =
        countLookups (fetch_avatar_url uid t s rest).2 + 1 := by
  have heq := fetch_rate_limit_eq uid t s r rest hnum hav h401 hlim
  refine ⟨by rw [heq], fetch_trace_head uid t s rest hnum, ?_⟩
  rw [heq]
  simp [countLookups, isLookup, List.filter]

/-- Claim C1 witness: identifier `"99"`, a rate-limit body with
`retry_after = 3`, then a successful lookup. -/
theorem rate_limit_sleeps_then_single_retry_witness :
    (is_number "99" = true ∧
        (⟨none, "rate limit", 3⟩ : ApiResponse).avatar = none ∧
        listContainsSub unauthorizedMarker (strLower "rate limit").data = false ∧
        listContainsSub limitMarker (strLower "rate limit").data = true) ∧
      ((fetch_avatar_url "99" "tk" 64
            [⟨none, "rate limit", 3⟩, ⟨some "h", "", 0⟩]).2 =
          Event.lookupRequest "99" "tk" 64 :: Event.sleep (3 : ℚ) ::
            (fetch_avatar_url "99" "tk" 64 [⟨some "h", "", 0⟩]).2 ∧
        (fetch_avatar_url "99" "tk" 64 [⟨some "h", "", 0⟩]).2.head? =
          some (Event.lookupRequest "99" "tk" 64) ∧
        countLookups (fetch_avatar_url "99" "tk" 64
            [⟨none, "rate limit", 3⟩, ⟨some "h", "", 0⟩]).2 =
          countLookups (fetch_avatar_url "99" "tk" 64 [⟨some "h", "", 0⟩]).2 + 1) :=
  ⟨⟨by decide, rfl, by decide, by decide⟩,
    rate_limit_sleeps_then_single_retry "99" "tk" 64 ⟨none, "rate limit", 3⟩
      [⟨some "h", "", 0⟩] (by decide) rfl (by decide) (by decide)⟩

/-! ## Claim C2 -/

/-- Claim C2: on a rate-limited first response the retried resolution's
value is discarded: whenever the retry returns at all (a URL or not),
the whole call returns Python's `None`; the call never returns a URL in
any case; and `download_avatar` on such an oracle leaves the cache
exactly as it was, whatever the retry produced. -/
theorem rate_limit_retry_result_discarded (uid t : String) (s : Nat)
    (r : ApiResponse) (rest : List ApiResponse) (cdn : String → Option Bytes)
    (dec : Bytes → Option Img) (fs : FileSys)
    (hnum : is_number uid = true) (hav : r.avatar = none)
    (h401 : listContainsSub unauthorizedMarker (strLower r.message).data = false)
    (hlim : listContainsSub limitMarker (strLower r.message).data = true) :
    (∀ v, (fetch_avatar_url uid t s rest).1 = FetchRet.ok v →
        (fetch_avatar_url uid t s (r :: rest)).1 = FetchRet.ok none) ∧
      (∀ u, ¬ (fetch_avatar_url uid t s (r :: rest)).1 = FetchRet.ok (some u)) ∧
      (download_avatar uid t s (r :: rest) cdn dec fs).2.1 = fs := by
  have heq := fetch_rate_limit_eq uid t s r rest hnum hav h401 hlim
  refine ⟨?_, ?_, ?_⟩
  · intro v hv
    rw [heq]
    simp only []
    rw [hv]
  · intro u
    rw [heq]
    simp only []
    cases hr : (fetch_avatar_url uid t s rest).1 <;> simp
  · cases hr : (fetch_avatar_url uid t s rest).1 with
    | ok v =>
      have h1 : (fetch_avatar_url uid t s (r :: rest)).1 = FetchRet.ok none := by
        rw [heq]; simp only []; rw [hr]
      rw [download_eq_of_fetch_none uid t s (r :: rest) cdn dec fs h1]
    | exn e =>
      have h1 : (fetch_avatar_url uid t s (r :: rest)).1 = FetchRet.exn e := by
        rw [heq]; simp only []; rw [hr]
      rw [download_eq_of_fetch_exn uid t s (r :: rest) cdn dec fs e h1]

/-- Claim C2 witness: identifier `"99"`, a rate-limit body followed by a
successful retry whose URL is nevertheless discarded, and a download on
the same oracle leaving an example cache state unchanged. -/
theorem rate_limit_retry_result_discarded_witness :
    (is_number "99" = true ∧
        listContainsSub limitMarker (strLower "rate limit").data = true) ∧
      ((∀ v, (fetch_avatar_url "99" "tk" 64 [⟨some "h", "", 0⟩]).1 = FetchRet.ok v →
          (fetch_avatar_url "99" "tk" 64
              [⟨none, "rate limit", 3⟩, ⟨some "h", "", 0⟩]).1 = FetchRet.ok none) ∧
        (∀ u, ¬ (fetch_avatar_url "99" "tk" 64
            [⟨none, "rate limit", 3⟩, ⟨some "h", "", 0⟩]).1 = FetchRet.ok (some u)) ∧
        (download_avatar "99" "tk" 64 [⟨none, "rate limit", 3⟩, ⟨some "h", "", 0⟩]
            (fun _ => some [7]) (fun _ => some [7]) [(⟨[], "x"⟩, [1])]).2.1 =
          [(⟨[], "x"⟩, [1])]) :=
  ⟨⟨by decide, by decide⟩,
    rate_limit_retry_result_discarded "99" "tk" 64 ⟨none, "rate limit", 3⟩
      [⟨some "h", "", 0⟩] (fun _ => some [7]) (fun _ => some [7]) [(⟨[], "x"⟩, [1])]
      (by decide) rfl (by decide) (by decide)⟩

/-! ## Claim C3 -/

/-- Claim C3: an identifier failing the numeric-format check makes
`fetch_avatar_url` return `None` at once, with an empty event trace —
zero network requests — whatever the network would have answered. -/
theorem non_numeric_uid_no_requests (uid t : String) (s : Nat)
    (resps : List ApiResponse) (hnum : is_number uid = false) :
    fetch_avatar_url uid t s resps = (FetchRet.ok none, []) := by
  cases resps <;> simp [fetch_avatar_url, hnum]

/-- Claim C3 witness: the non-numeric identifier `"abc"`. -/
theorem non_numeric_uid_no_requests_witness :
    is_number "abc" = false ∧
      fetch_avatar_url "abc" "tk" 64 [⟨some "h", "ok", 0⟩] = (FetchRet.ok none, []) :=
  ⟨by decide, non_numeric_uid_no_requests "abc" "tk" 64 [⟨some "h", "ok", 0⟩] (by decide)⟩

/-! ## Claim C5 -/

/-- Claim C5: a response lacking the avatar field whose lowercased
message contains the unauthorized marker makes `fetch_avatar_url` raise
`InvalidTokenError` carrying the credential and the raw response body,
with exactly one lookup request in the trace — no further network
request is issued in that attempt. -/
theorem unauthorized_invalid_token_single_request (uid t : String) (s : Nat)
    (r : ApiResponse) (rest : List ApiResponse)
    (hnum : is_number uid = true) (hav : r.avatar = none)
    (h401 : listContainsSub unauthorizedMarker (strLower r.message).data = true) :
    fetch_avatar_url uid t s (r :: rest) =
      (FetchRet.exn (FetchExn.invalidTokenError t r),
       [Event.lookupRequest uid t s]) := by
  simp [fetch_avatar_url, hnum, hav, h401]

/-- Claim C5 witness: identifier `"123"` and a `401: Unauthorized`
body. -/
theorem unauthorized_invalid_token_single_request_witness :
    (is_number "123" = true ∧
        listContainsSub unauthorizedMarker (strLower "401: Unauthorized").data = true) ∧
      fetch_avatar_url "123" "tk" 64 [⟨none, "401: Unauthorized", 0⟩, ⟨some "h", "", 0⟩] =
        (FetchRet.exn (FetchExn.invalidTokenError "tk" ⟨none, "401: Unauthorized", 0⟩),
         [Event.lookupRequest "123" "tk" 64]) :=
  ⟨⟨by decide, by decide⟩,
    unauthorized_invalid_token_single_request "123" "tk" 64
      ⟨none, "401: Unauthorized", 0⟩ [⟨some "h", "", 0⟩] (by decide) rfl (by decide)⟩

/-! ## Claim C6 -/

/-- Claim C6: when the link resolver returns "no avatar" (`None`), the
downloader issues no CDN request, writes nothing to the cache — the
filesystem state is returned unchanged — and returns normally; its whole
trace contains no CDN request and no cache write. -/
theorem no_avatar_skips_download_and_write (uid t : String) (s : Nat)
    (resps : List ApiResponse) (cdn : String → Option Bytes)
    (dec : Bytes → Option Img) (fs : FileSys)
    (h : (fetch_avatar_url uid t s resps).1 = FetchRet.ok none) :
    (download_avatar uid t s resps cdn dec fs).1 = DlRet.ok ∧
      (download_avatar uid t s resps cdn dec fs).2.1 = fs ∧
      ∀ e ∈ (download_avatar uid t s resps cdn dec fs).2.2, isCdnOrWrite e = false := by
  rw [download_eq_of_fetch_none uid t s resps cdn dec fs h]
  refine ⟨rfl, rfl, ?_⟩
  intro e he
  simp only [List.mem_cons] at he
  rcases he with he | he
  · rw [he]; rfl
  · exact fetch_trace_events uid t s resps e he

/-- Claim C6 witness: the non-numeric identifier `"abc"` resolves to
`None` and the downloader leaves an example cache state untouched. -/
theorem no_avatar_skips_download_and_write_witness :
    (fetch_avatar_url "abc" "tk" 64 []).1 = FetchRet.ok none ∧
      ((download_avatar "abc" "tk" 64 [] (fun _ => some [7]) (fun _ => some [7])
            [(⟨[], "x"⟩, [1])]).1 = DlRet.ok ∧
        (download_avatar "abc" "tk" 64 [] (fun _ => some [7]) (fun _ => some [7])
            [(⟨[], "x"⟩, [1])]).2.1 = [(⟨[], "x"⟩, [1])] ∧
        ∀ e ∈ (download_avatar "abc" "tk" 64 [] (fun _ => some [7]) (fun _ => some [7])
            [(⟨[], "x"⟩, [1])]).2.2, isCdnOrWrite e = false) :=
  ⟨by decide,
    no_avatar_skips_download_and_write "abc" "tk" 64 [] (fun _ => some [7])
      (fun _ => some [7]) [(⟨[], "x"⟩, [1])] (by decide)⟩

/-! ## Claim C7 -/

/-- Claim C7: when the CDN body's bytes fail to decode, the downloader
surfaces `cv2.error` (raised by writing the `None` returned by
`cv2.imdecode`), a failure kind distinct from both connection-error
constructors — never classified as a connectivity error — and the cache,
in particular the effect-0 entry of the identifier, is not written. -/
theorem decode_failure_distinct_from_connectivity (uid t : String) (s : Nat)
    (resps : List ApiResponse) (cdn : String → Option Bytes)
    (dec : Bytes → Option Img) (fs : FileSys) (url : String) (bs : Bytes)
    (hfetch : (fetch_avatar_url uid t s resps).1 = FetchRet.ok (some url))
    (hcdn : cdn url = some bs) (hdec : dec bs = none) :
    (download_avatar uid t s resps cdn dec fs).1 = DlRet.exn DlExn.cv2Error ∧
      (download_avatar uid t s resps cdn dec fs).2.1 = fs ∧
      fsLookup (download_avatar uid t s resps cdn dec fs).2.1 (get_avatar_path uid) =
        fsLookup fs (get_avatar_path uid) ∧
      ¬ DlExn.cv2Error = DlExn.cdnConnError ∧
      ∀ e2, ¬ DlExn.cv2Error = DlExn.fetchErr e2 := by
  rw [download_eq_decode_fail uid t s resps cdn dec fs url bs hfetch hcdn hdec]
  exact ⟨rfl, rfl, rfl, by decide, fun e2 h => DlExn.noConfusion h⟩

/-- Claim C7 witness: identifier `"7"`, a successful lookup, a CDN body
that does not decode. -/
theorem decode_failure_distinct_from_connectivity_witness :
    (fetch_avatar_url "7" "tk" 64 [⟨some "h", "", 0⟩]).1 =
        FetchRet.ok (some "https://cdn.discordapp.com/avatars/7/h.png?size=64") ∧
      ((download_avatar "7" "tk" 64 [⟨some "h", "", 0⟩] (fun _ => some [9])
            (fun _ => none) []).1 = DlRet.exn DlExn.cv2Error ∧
        (download_avatar "7" "tk" 64 [⟨some "h", "", 0⟩] (fun _ => some [9])
            (fun _ => none) []).2.1 = [] ∧
        fsLookup (download_avatar "7" "tk" 64 [⟨some "h", "", 0⟩] (fun _ => some [9])
            (fun _ => none) []).2.1 (get_avatar_path "7") =
          fsLookup [] (get_avatar_path "7") ∧
        ¬ DlExn.cv2Error = DlExn.cdnConnError ∧
        ∀ e2, ¬ DlExn.cv2Error = DlExn.fetchErr e2) :=
  ⟨by decide,
    decode_failure_distinct_from_connectivity "7" "tk" 64 [⟨some "h", "", 0⟩]
      (fun _ => some [9]) (fun _ => none) []
      "https://cdn.discordapp.com/avatars/7/h.png?size=64" [9]
      (by decide) rfl rfl⟩

/-! ## Claim C8 -/

/-- Claim C8: the effect processor with effect code `0` returns the
input path unchanged and performs no read and no write: the cache state
it returns is the one it was given. -/
theorem effect_zero_identity_no_write (gray : Img → Img) (og_dir : PyPath)
    (fs : FileSys) :
    artistic_effect gray og_dir 0 fs = (Except.ok og_dir, fs) := by
  simp [artistic_effect]

/-! ## Claim C9 -/

/-- Claim C9: an unrecognized non-zero effect code (anything other than
`0` and `1`) does not fail and passes the image through unmodified: the
processor reads the base entry, applies no transform, and writes exactly
the original image at the sibling cache path computed for the code. -/
theorem unrecognized_effect_passthrough (gray : Img → Img) (og_dir : PyPath)
    (e : Int) (fs : FileSys) (img : Img) (fx : PyPath)
    (h0 : ¬ e = 0) (h1 : ¬ e = 1)
    (hread : fsLookup fs og_dir = some img)
    (hdir : get_avatar_dir_og og_dir e = Except.ok fx) :
    artistic_effect gray og_dir e fs = (Except.ok fx, fsWrite fs fx img) := by
  simp [artistic_effect, h0, h1, hread, hdir]

/-- Claim C9 witness: effect code `2` on the base entry of identifier
`"5"`, with a grayscale stub that would wipe the image if it were ever
applied. -/
theorem unrecognized_effect_passthrough_witness :
    (¬ (2 : Int) = 0 ∧ ¬ (2 : Int) = 1 ∧
        fsLookup [(get_avatar_dir_uid "5" 0, [1, 2, 3])] (get_avatar_dir_uid "5" 0) =
          some [1, 2, 3] ∧
        get_avatar_dir_og (get_avatar_dir_uid "5" 0) 2 =
          Except.ok (get_avatar_dir_uid "5" 2)) ∧
      artistic_effect (fun _ => []) (get_avatar_dir_uid "5" 0) 2
          [(get_avatar_dir_uid "5" 0, [1, 2, 3])] =
        (Except.ok (get_avatar_dir_uid "5" 2),
         fsWrite [(get_avatar_dir_uid "5" 0, [1, 2, 3])] (get_avatar_dir_uid "5" 2)
           [1, 2, 3]) :=
  ⟨⟨by decide, by decide, by decide, by decide⟩,
    unrecognized_effect_passthrough (fun _ => []) (get_avatar_dir_uid "5" 0) 2
      [(get_avatar_dir_uid "5" 0, [1, 2, 3])] [1, 2, 3] (get_avatar_dir_uid "5" 2)
      (by decide) (by decide) (by decide) (by decide)⟩

/-! ## Claim C10 -/

/-- Claim C10: the resolver's numeric check is exactly acceptance by
Python's `float()` (the embedded grammar `pyFloatOk`); in particular the
non-integer forms `2.5`, `1e5`, `inf` and `nan` all pass the check, and
for each of them `fetch_avatar_url` proceeds to a network lookup — its
first event is the lookup request — rather than short-circuiting to "no
avatar". -/
theorem is_number_matches_float_and_proceeds :
    (∀ s2 : String, is_number s2 = pyFloatOk s2) ∧
      is_number "2.5" = true ∧ is_number "1e5" = true ∧
      is_number "inf" = true ∧ is_number "nan" = true ∧
      (∀ (t : String) (sz : Nat) (resps : List ApiResponse),
        (fetch_avatar_url "2.5" t sz resps).2.head? =
            some (Event.lookupRequest "2.5" t sz) ∧
          (fetch_avatar_url "1e5" t sz resps).2.head? =
            some (Event.lookupRequest "1e5" t sz) ∧
          (fetch_avatar_url "inf" t sz resps).2.head? =
            some (Event.lookupRequest "inf" t sz) ∧
          (fetch_avatar_url "nan" t sz resps).2.head? =
            some (Event.lookupRequest "nan" t sz)) :=
  ⟨fun _ => rfl, by decide, by decide, by decide, by decide,
    fun t sz resps =>
      ⟨fetch_trace_head "2.5" t sz resps (by decide),
       fetch_trace_head "1e5" t sz resps (by decide),
       fetch_trace_head "inf" t sz resps (by decide),
       fetch_trace_head "nan" t sz resps (by decide)⟩⟩
